import Mathlib

/-!
# Verification of `url-status-checker`, package `internal/checker`

Shallow embedding of `internal/checker/checker.go` (types from
`internal/models/models.go`).  The file models:

* `CheckResult` — the per-URL outcome struct (`models.CheckResult`);
* `Checker` / `New` — the checker configuration, including the
  `http.Client.CheckRedirect = ErrUseLastResponse` policy set by `New`;
* `checkURL` — one probe, as a function of the abstract network outcome
  (`ProbeEnv`: the result of `http.NewRequestWithContext` and of
  `http.Client.Do`, and the measured elapsed milliseconds);
* `clientDo` — the timing semantics of the collaborator `http.Client.Do`
  on a request that carries the batch context (created by
  `http.NewRequestWithContext`): the call resolves at the earliest of
  server response, client timeout, and context deadline;
* `CheckURLs` / `workerCount` / `spawnedWorkers` / `probedJobs` — the
  batch coordinator.  Concurrency is modelled by the observable drain of
  the single shared `jobs` channel: jobs are enqueued in input order, and
  before each probe the dequeuing worker polls `ctx.Done()`
  (`select { case <-ctx.Done(): return; default: ... }`).  The
  cancellation signal is a monotone boolean function of the poll index
  (`CancelSignal`); a probe whose poll preceded the firing corresponds to
  an "in-flight" probe of the real system.  The multiset of emitted
  results — the only observable the claims speak about — is the image of
  the probed jobs under the probe function.
-/

namespace URLChecker

/-- Embeds `models.CheckResult`: the result of checking a single URL.
`checkedAt` stands for the `time.Time` stamp; `responseTimeMs` is Go's
`int64`, `statusCode` Go's `int` (both embedded as `Int`, zero-valued
until assigned, exactly as Go zero-initialises struct fields). -/
structure CheckResult where
  checkedAt : Nat
  url : String
  error : String
  responseTimeMs : Int
  statusCode : Int
  available : Bool
deriving Repr, DecidableEq

/-- The redirect policy of an `http.Client`.  `followAll` is Go's default
behaviour (follow up to 10 redirects); `useLastResponse` is the behaviour
selected by returning `http.ErrUseLastResponse` from `CheckRedirect`:
do not follow, hand the most recent (here: the first) response back to
the caller. -/
inductive RedirectPolicy where
  | followAll
  | useLastResponse
deriving Repr, DecidableEq

/-- Embeds `checker.Checker`: holds the `http.Client` (its `Timeout` and its
`CheckRedirect` policy) and `maxWorkers` (Go `int`, so possibly ≤ 0). -/
structure Checker where
  timeoutMs : Nat
  redirectPolicy : RedirectPolicy
  maxWorkers : Int
deriving Repr, DecidableEq

/-- Embeds `checker.New`: builds the `http.Client` with the given timeout and
with `CheckRedirect` returning `http.ErrUseLastResponse`, and stores
`maxWorkers` unchecked. -/
def New (timeoutMs : Nat) (maxWorkers : Int) : Checker :=
  { timeoutMs := timeoutMs
    redirectPolicy := RedirectPolicy.useLastResponse
    maxWorkers := maxWorkers }

/-- The abstract network environment one `checkURL` call runs in:
`parseError` is the error of `http.NewRequestWithContext` (`none` when
the URL yields a well-formed request — this step is a pure in-memory
parse, it elapses no measurable wall time); `doResult` is the outcome of
`c.client.Do` (a response status code, or a transport / timeout /
context error); `elapsedMs` is `time.Since(start).Milliseconds()`
measured around the `Do` call; `now` is `time.Now()` at entry. -/
structure ProbeEnv where
  parseError : Option String
  doResult : Except String Int
  elapsedMs : Int
  now : Nat
deriving Repr

/-- Embeds `checker.checkURL`, line for line.  The Go code:

* zero-initialises the result with `URL` and `CheckedAt`;
* on a `NewRequestWithContext` error, sets `Error` and returns at once
  (`ResponseTimeMs` keeps its zero value — no wall time has elapsed);
* otherwise sets `ResponseTimeMs` from the duration of `Do`;
* on a `Do` error, sets `Error` and returns;
* otherwise records `StatusCode` and
  `Available = StatusCode >= 200 && StatusCode < 400`. -/
def checkURL (env : ProbeEnv) (url : String) : CheckResult :=
  let result : CheckResult :=
    { checkedAt := env.now, url := url, error := ""
      responseTimeMs := 0, statusCode := 0, available := false }
  match env.parseError with
  | some msg => { result with error := "failed to create request: " ++ msg }
  | none =>
    let result := { result with responseTimeMs := env.elapsedMs }
    match env.doResult with
    | Except.error msg => { result with error := "request failed: " ++ msg }
    | Except.ok status =>
      { result with
          statusCode := status
          available := decide (200 ≤ status) && decide (status < 400) }

/-- Timing model of the collaborator `http.Client.Do` on a request built
by `http.NewRequestWithContext(ctx, ...)` — exactly how `checkURL` builds
its request.  The request carries the batch context, so the call resolves
at the earliest of: the server answering (`serverDelayMs`), the client
timeout (`timeoutMs`), and the context deadline (`ctxRemainingMs`,
`none` when the context has no deadline).  First component: the response
status or the error; second component: the elapsed milliseconds. -/
def clientDo (timeoutMs : Nat) (ctxRemainingMs : Option Nat)
    (serverDelayMs : Nat) (serverStatus : Int) : Except String Int × Nat :=
  let bound : Nat :=
    match ctxRemainingMs with
    | none => timeoutMs
    | some d => min timeoutMs d
  if serverDelayMs ≤ bound then
    (Except.ok serverStatus, serverDelayMs)
  else
    (Except.error
      (match ctxRemainingMs with
       | some d =>
         if d < timeoutMs then "context deadline exceeded"
         else "Client.Timeout exceeded while awaiting headers"
       | none => "Client.Timeout exceeded while awaiting headers"),
     bound)

/-- Redirect semantics of the modelled `http.Client`: `chain` is the
sequence of responses the server would serve along the redirect chain
(head = the response to the single initial GET).  How many outbound
requests the client issues for one `Do` call. -/
def requestsIssued (p : RedirectPolicy) (chain : List Int) : Nat :=
  match p with
  | RedirectPolicy.useLastResponse => min chain.length 1
  | RedirectPolicy.followAll => min chain.length 10

/-- The status of the response `Do` hands back under a redirect policy:
with `useLastResponse` the first response itself, even when it is a
redirect; with `followAll` the end of the chain. -/
def finalResponse (p : RedirectPolicy) (chain : List Int) : Option Int :=
  match p with
  | RedirectPolicy.useLastResponse => chain.head?
  | RedirectPolicy.followAll => chain.getLast?

/-- The batch cancellation signal (`ctx.Done()`): `fires t` says the
`Done` channel is observed closed at the `t`-th poll.  A closed channel
stays closed, hence monotone. -/
structure CancelSignal where
  fires : Nat → Bool
  mono : ∀ s t : Nat, s ≤ t → fires s = true → fires t = true

/-- The never-cancelled context (`context.Background()`). -/
def cancelNever : CancelSignal :=
  { fires := fun _ => false
    mono := by intro s t _ h; exact h }

/-- A context whose deadline has fired by the `k`-th poll: every poll from
index `k` on observes `Done` closed. -/
def cancelFrom (k : Nat) : CancelSignal :=
  { fires := fun t => decide (k ≤ t)
    mono := by
      intro s t hst h
      simp only [decide_eq_true_eq] at h ⊢
      omega }

/-- The worker-count computation at the top of `checker.CheckURLs`:
`workerCount := c.maxWorkers; if len(urls) < workerCount { workerCount =
len(urls) }`.  Go `int` arithmetic, so the value can be ≤ 0. -/
def workerCount (c : Checker) (urls : List String) : Int :=
  if (urls.length : Int) < c.maxWorkers then (urls.length : Int) else c.maxWorkers

/-- How many worker goroutines `for i := 0; i < workerCount; i++` spawns:
`workerCount` when positive, none when `workerCount ≤ 0`. -/
def spawnedWorkers (c : Checker) (urls : List String) : Nat :=
  (workerCount c urls).toNat

/-- The jobs that actually get probed (`checker.worker`): the producer
goroutine enqueues `urls` in order into the shared `jobs` channel until
`ctx.Done()`; each worker, per dequeued job, first polls `ctx.Done()`
(select with default) and exits without probing once cancellation is
observed.  `t` is the poll index of the next dequeue.  Once `fires t`
holds, monotonicity makes every later poll observe it too, so no further
job is probed. -/
def probedJobs (cancel : CancelSignal) : Nat → List String → List String
  | _, [] => []
  | t, url :: rest =>
    if cancel.fires t then [] else url :: probedJobs cancel (t + 1) rest

/-- The jobs `CheckURLs` dispatches to probes: none when the early
`workerCount == 0` return is taken or no worker goroutine is spawned,
otherwise the drain of the jobs channel. -/
def dispatchedURLs (c : Checker) (cancel : CancelSignal)
    (urls : List String) : List String :=
  if workerCount c urls = 0 then []
  else if spawnedWorkers c urls = 0 then []
  else probedJobs cancel 0 urls

/-- Embeds `checker.CheckURLs`.  The Go code computes `workerCount`, returns
`[]models.CheckResult{}` when it is 0, spawns the workers, feeds the
jobs channel, waits on the `WaitGroup`, and collects everything the
workers wrote to the `results` channel.  When `workerCount < 0` the
spawn loop runs zero times, so the `WaitGroup` is empty, `results` is
closed at once and the collected slice is empty.  Otherwise the
collected multiset is the image under the probe of the jobs drained
before cancellation.  `probe` abstracts `c.checkURL(ctx, url)` (the
network is external state). -/
def CheckURLs (c : Checker) (probe : String → CheckResult)
    (cancel : CancelSignal) (urls : List String) : List CheckResult :=
  (dispatchedURLs c cancel urls).map probe

theorem dispatchedURLs_pos (c : Checker) (cancel : CancelSignal)
    (urls : List String) (h : 0 < workerCount c urls) :
    dispatchedURLs c cancel urls = probedJobs cancel 0 urls := by
  unfold dispatchedURLs spawnedWorkers
  rw [if_neg (by omega), if_neg (by omega)]

theorem probedJobs_of_never (cancel : CancelSignal)
    (h : ∀ t, cancel.fires t = false) :
    ∀ (t : Nat) (l : List String), probedJobs cancel t l = l := by
  intro t l
  induction l generalizing t with
  | nil => rfl
  | cons u rest ih => simp [probedJobs, h, ih]

theorem checkURLs_nonpos_workers (c : Checker) (probe : String → CheckResult)
    (cancel : CancelSignal) (urls : List String)
    (h : c.maxWorkers ≤ 0) :
    CheckURLs c probe cancel urls = [] ∧ dispatchedURLs c cancel urls = [] := by
  have hwc : workerCount c urls ≤ 0 := by
    simp only [workerCount]
    split <;> omega
  have hd : dispatchedURLs c cancel urls = [] := by
    unfold dispatchedURLs spawnedWorkers
    rcases eq_or_lt_of_le hwc with heq | hlt
    · rw [if_pos heq]
    · rw [if_neg (by omega), if_pos (by omega)]
  exact ⟨by simp [CheckURLs, hd], hd⟩

/-- A concrete probe function standing for `c.checkURL(ctx, url)` against a
server that answers 200 after 1 ms; used for concrete instantiations. -/
def probeStub : String → CheckResult := fun u =>
  checkURL { parseError := none, doResult := Except.ok 200, elapsedMs := 1, now := 0 } u

theorem append_ne_empty_left (s t : String) (h : s.length ≠ 0) :
    s ++ t ≠ "" := by
  intro he
  apply h
  have hl := congrArg String.length he
  rw [String.length_append] at hl
  simp only [String.length_empty] at hl
  omega

/-- C3: for every probe that receives an HTTP response within the timeout
(`parseError = none`, `doResult = ok s`), the outcome's `available` field
is true iff the status code lies in [200, 400); the status code is
recorded verbatim and `error` stays empty — so a 200 response yields
`available = true`, `statusCode = 200`, no error, and a 404 response
yields `available = false`, `statusCode = 404`, no error. -/
theorem C3_available_iff_status_in_range (s e : Int) (n : Nat) (u : String) :
    ((checkURL ⟨none, Except.ok s, e, n⟩ u).available = true ↔ 200 ≤ s ∧ s < 400) ∧
    (checkURL ⟨none, Except.ok s, e, n⟩ u).statusCode = s ∧
    (checkURL ⟨none, Except.ok s, e, n⟩ u).error = "" := by
  simp [checkURL]

/-- C3, instantiated: a 200 response is available with code 200 and no
error; a 404 response is unavailable with code 404 and no error. -/
theorem C3_witness :
    (checkURL ⟨none, Except.ok 200, 5, 0⟩ "https://a.example").available = true ∧
    (checkURL ⟨none, Except.ok 200, 5, 0⟩ "https://a.example").statusCode = 200 ∧
    (checkURL ⟨none, Except.ok 200, 5, 0⟩ "https://a.example").error = "" ∧
    (checkURL ⟨none, Except.ok 404, 5, 0⟩ "https://a.example").available = false ∧
    (checkURL ⟨none, Except.ok 404, 5, 0⟩ "https://a.example").statusCode = 404 ∧
    (checkURL ⟨none, Except.ok 404, 5, 0⟩ "https://a.example").error = "" := by
  have h200 := C3_available_iff_status_in_range 200 5 0 "https://a.example"
  have h404 := C3_available_iff_status_in_range 404 5 0 "https://a.example"
  refine ⟨h200.1.mpr (by norm_num), h200.2.1, h200.2.2, ?_, h404.2.1, h404.2.2⟩
  cases hav : (checkURL ⟨none, Except.ok 404, 5, 0⟩ "https://a.example").available
  · rfl
  · exact absurd (h404.1.mp hav) (by norm_num)

/-- C4: every probe that fails to obtain a response — either the request
cannot be created (`parseError = some msg`; malformed target) or
`client.Do` errors (`doResult = error msg`; DNS / refusal / timeout /
cancellation) — yields `available = false`, an absent (zero) status code
and a non-empty error string prefixed with the Go code's format string,
and `responseTimeMs` records the wall time elapsed up to the failure:
0 for the instantaneous request-creation failure, the measured `Do`
duration otherwise. -/
theorem C4_failure_outcome (env : ProbeEnv) (u msg : String) :
    (env.parseError = some msg →
      (checkURL env u).available = false ∧
      (checkURL env u).statusCode = 0 ∧
      (checkURL env u).error = "failed to create request: " ++ msg ∧
      (checkURL env u).error ≠ "" ∧
      (checkURL env u).responseTimeMs = 0) ∧
    (env.parseError = none → env.doResult = Except.error msg →
      (checkURL env u).available = false ∧
      (checkURL env u).statusCode = 0 ∧
      (checkURL env u).error = "request failed: " ++ msg ∧
      (checkURL env u).error ≠ "" ∧
      (checkURL env u).responseTimeMs = env.elapsedMs) := by
  obtain ⟨p, d, e, n⟩ := env
  constructor
  · intro hp
    subst hp
    refine ⟨rfl, rfl, rfl, ?_, rfl⟩
    exact append_ne_empty_left _ _ (by decide)
  · intro hp hd
    subst hp
    subst hd
    refine ⟨rfl, rfl, rfl, ?_, rfl⟩
    exact append_ne_empty_left _ _ (by decide)

/-- C4, instantiated: a malformed target (as in `TestCheckURLInvalidURL`)
and a timed-out request (as in `TestCheckURLTimeout`) both yield
unavailable outcomes with zero status code, a non-empty error, and the
elapsed-time recording of their branch. -/
theorem C4_witness :
    (checkURL ⟨some "parse error", Except.ok 0, 0, 0⟩ "://invalid-url").available = false ∧
    (checkURL ⟨some "parse error", Except.ok 0, 0, 0⟩ "://invalid-url").statusCode = 0 ∧
    (checkURL ⟨some "parse error", Except.ok 0, 0, 0⟩ "://invalid-url").error ≠ "" ∧
    (checkURL ⟨some "parse error", Except.ok 0, 0, 0⟩ "://invalid-url").responseTimeMs = 0 ∧
    (checkURL ⟨none, Except.error "context deadline exceeded", 100, 0⟩ "https://slow.example").available = false ∧
    (checkURL ⟨none, Except.error "context deadline exceeded", 100, 0⟩ "https://slow.example").statusCode = 0 ∧
    (checkURL ⟨none, Except.error "context deadline exceeded", 100, 0⟩ "https://slow.example").error ≠ "" ∧
    (checkURL ⟨none, Except.error "context deadline exceeded", 100, 0⟩ "https://slow.example").responseTimeMs = 100 := by
  have h1 := (C4_failure_outcome ⟨some "parse error", Except.ok 0, 0, 0⟩
    "://invalid-url" "parse error").1 rfl
  have h2 := (C4_failure_outcome ⟨none, Except.error "context deadline exceeded", 100, 0⟩
    "https://slow.example" "context deadline exceeded").2 rfl rfl
  exact ⟨h1.1, h1.2.1, h1.2.2.2.1, h1.2.2.2.2, h2.1, h2.2.1, h2.2.2.2.1, h2.2.2.2.2⟩

/-- C8: the client built by `New` carries the `ErrUseLastResponse`
redirect policy, so every probe performs a single HTTP GET (one request
issued regardless of the server's redirect chain), the first response —
even a redirect — is the final response handed back, and its status code
(e.g. 301) is recorded as the outcome's `statusCode`. -/
theorem C8_single_get_no_redirect (tm : Nat) (mw : Int) (s e : Int)
    (rest : List Int) (n : Nat) (u : String) :
    (New tm mw).redirectPolicy = RedirectPolicy.useLastResponse ∧
    requestsIssued (New tm mw).redirectPolicy (s :: rest) = 1 ∧
    finalResponse (New tm mw).redirectPolicy (s :: rest) = some s ∧
    (checkURL ⟨none, Except.ok s, e, n⟩ u).statusCode = s := by
  refine ⟨rfl, ?_, rfl, by simp [checkURL]⟩
  simp only [New, requestsIssued, List.length_cons]
  omega

/-- C10: structural invariant of every `checkURL` outcome: if `available`
is true then the status code lies in [200, 400) and the error is empty;
if the error is non-empty then `available` is false and the status code
is the zero value. -/
theorem C10_result_invariant (env : ProbeEnv) (u : String) :
    ((checkURL env u).available = true →
      200 ≤ (checkURL env u).statusCode ∧
      (checkURL env u).statusCode < 400 ∧
      (checkURL env u).error = "") ∧
    ((checkURL env u).error ≠ "" →
      (checkURL env u).available = false ∧
      (checkURL env u).statusCode = 0) := by
  obtain ⟨p, d, e, n⟩ := env
  rcases p with _ | msg
  · rcases d with msg2 | s
    · exact ⟨fun h => by simp [checkURL] at h, fun _ => by simp [checkURL]⟩
    · constructor
      · intro h
        simp only [checkURL, Bool.and_eq_true, decide_eq_true_eq] at h
        exact ⟨h.1, h.2, rfl⟩
      · intro h
        simp [checkURL] at h
  · exact ⟨fun h => by simp [checkURL] at h, fun _ => by simp [checkURL]⟩

/-- C10, instantiated: a 301 response satisfies the available-direction of
the invariant, and a malformed target satisfies the error-direction. -/
theorem C10_witness :
    200 ≤ (checkURL ⟨none, Except.ok 301, 7, 0⟩ "https://r.example").statusCode ∧
    (checkURL ⟨none, Except.ok 301, 7, 0⟩ "https://r.example").statusCode < 400 ∧
    (checkURL ⟨none, Except.ok 301, 7, 0⟩ "https://r.example").error = "" ∧
    (checkURL ⟨some "parse error", Except.ok 0, 0, 0⟩ "://bad").available = false ∧
    (checkURL ⟨some "parse error", Except.ok 0, 0, 0⟩ "://bad").statusCode = 0 := by
  have h1 := (C10_result_invariant ⟨none, Except.ok 301, 7, 0⟩ "https://r.example").1
    (by decide)
  have h2 := (C10_result_invariant ⟨some "parse error", Except.ok 0, 0, 0⟩ "://bad").2
    (by decide)
  exact ⟨h1.1, h1.2.1, h1.2.2, h2.1, h2.2⟩

theorem spawnedWorkers_nil (c : Checker) : spawnedWorkers c [] = 0 := by
  unfold spawnedWorkers workerCount
  simp only [List.length_nil, Nat.cast_zero]
  split <;> omega

/-- C1 (amended): with a valid configuration (`maxWorkers ≥ 1`) and a
cancellation signal that never fires, `CheckURLs` returns exactly one
`CheckResult` per input URL — duplicates included — for every probe
behaviour.  (As stated, the claim also asserted this under mid-batch
cancellation; `C1_counterexample` refutes that part: jobs past the
cancellation point are dropped.) -/
theorem C1_one_result_per_url (c : Checker) (probe : String → CheckResult)
    (cancel : CancelSignal) (urls : List String)
    (hw : 1 ≤ c.maxWorkers) (hc : ∀ t, cancel.fires t = false) :
    (CheckURLs c probe cancel urls).length = urls.length := by
  rcases urls with _ | ⟨u, rest⟩
  · simp [CheckURLs, dispatchedURLs, spawnedWorkers_nil]
  · have hpos : 0 < workerCount c (u :: rest) := by
      simp only [workerCount, List.length_cons]
      split <;> omega
    rw [CheckURLs, dispatchedURLs_pos _ _ _ hpos, probedJobs_of_never _ hc,
      List.length_map]

/-- C1, instantiated: three targets (two duplicated), ten workers, no
cancellation — exactly three results. -/
theorem C1_witness :
    1 ≤ (New 5000 10).maxWorkers ∧
    (∀ t, cancelNever.fires t = false) ∧
    (CheckURLs (New 5000 10) probeStub cancelNever
      ["https://a.example", "https://b.example", "https://a.example"]).length = 3 := by
  refine ⟨by decide, fun _ => rfl, ?_⟩
  exact (C1_one_result_per_url (New 5000 10) probeStub cancelNever
    ["https://a.example", "https://b.example", "https://a.example"]
    (by decide) (fun _ => rfl)).trans rfl

/-- C1, refuted as stated: the same three-target batch (mirroring
`TestCheckURLsContextCancellation`, which submits three identical URLs)
under a deadline that fires after the first dispatch yields one result,
not three — cancellation mid-batch drops the targets not yet dispatched,
so the result count does not always equal the input count. -/
theorem C1_counterexample :
    (CheckURLs (New 5000 10) probeStub (cancelFrom 1)
      ["https://s.example", "https://s.example", "https://s.example"]).length = 1 ∧
    (["https://s.example", "https://s.example", "https://s.example"] : List String).length = 3 ∧
    (1 : Nat) ≠ 3 := by
  refine ⟨?_, rfl, by decide⟩
  rfl

/-- C2 (amended): `CheckURLs` never reports a configuration error — its
only observable is the returned result list.  When `maxWorkers < 1` and
the target list is non-empty, it dispatches no probe and returns the
empty list, indistinguishable from the result of an empty batch; no
condition makes the batch as a whole fail. -/
theorem C2_no_config_error (c : Checker) (probe : String → CheckResult)
    (cancel : CancelSignal) (urls : List String)
    (hw : c.maxWorkers ≤ 0) (_hne : urls ≠ []) :
    CheckURLs c probe cancel urls = CheckURLs c probe cancel [] ∧
    dispatchedURLs c cancel urls = [] := by
  have h1 := checkURLs_nonpos_workers c probe cancel urls hw
  have h2 := checkURLs_nonpos_workers c probe cancel [] hw
  exact ⟨h1.1.trans h2.1.symm, h1.2⟩

/-- C2, instantiated: `maxWorkers = 0` with one target. -/
theorem C2_witness :
    (New 5000 0).maxWorkers ≤ 0 ∧
    (["https://a.example"] : List String) ≠ [] ∧
    CheckURLs (New 5000 0) probeStub cancelNever ["https://a.example"] =
      CheckURLs (New 5000 0) probeStub cancelNever [] ∧
    dispatchedURLs (New 5000 0) cancelNever ["https://a.example"] = [] := by
  have h := C2_no_config_error (New 5000 0) probeStub cancelNever
    ["https://a.example"] (by decide) (by simp)
  exact ⟨by decide, by simp, h.1, h.2⟩

/-- C2, refuted as stated: at `maxWorkers = 0` with a non-empty target
list the batch does not fail and no configuration error reaches the
caller — the return type of `CheckURLs` is a bare result list with no
error component, and here that list is simply empty, the very value a
legitimate empty batch returns. -/
theorem C2_counterexample :
    CheckURLs (New 5000 0) probeStub cancelNever ["https://a.example"] = [] ∧
    dispatchedURLs (New 5000 0) cancelNever ["https://a.example"] = [] ∧
    CheckURLs (New 5000 0) probeStub cancelNever ["https://a.example"] =
      CheckURLs (New 5000 10) probeStub cancelNever [] := by
  refine ⟨rfl, rfl, rfl⟩

/-- C5: with `maxWorkers ≥ 1`, the number of worker goroutines spawned
equals `min maxWorkers (number of targets)` — the model's executor count,
which concurrent execution therefore never exceeds — and it is at least 1
whenever the target list is non-empty. -/
theorem C5_effective_worker_count (c : Checker) (urls : List String)
    (hw : 1 ≤ c.maxWorkers) :
    (spawnedWorkers c urls : Int) = min c.maxWorkers (urls.length : Int) ∧
    (urls ≠ [] → 1 ≤ spawnedWorkers c urls) := by
  constructor
  · unfold spawnedWorkers workerCount
    split <;> omega
  · intro hne
    have hlen : 1 ≤ urls.length := List.length_pos.mpr hne
    unfold spawnedWorkers workerCount
    split <;> omega

/-- C5, instantiated: ten targets and `maxWorkers = 5` (the configuration
of `TestCheckURLsConcurrency`) spawn exactly `min 5 10 = 5` workers. -/
theorem C5_witness :
    1 ≤ (New 5000 5).maxWorkers ∧
    (["u1", "u2", "u3", "u4", "u5", "u6", "u7", "u8", "u9", "u10"] : List String) ≠ [] ∧
    spawnedWorkers (New 5000 5)
      ["u1", "u2", "u3", "u4", "u5", "u6", "u7", "u8", "u9", "u10"] = 5 ∧
    1 ≤ spawnedWorkers (New 5000 5)
      ["u1", "u2", "u3", "u4", "u5", "u6", "u7", "u8", "u9", "u10"] := by
  have h := C5_effective_worker_count (New 5000 5)
    ["u1", "u2", "u3", "u4", "u5", "u6", "u7", "u8", "u9", "u10"] (by decide)
  exact ⟨by decide, by simp, by decide, h.2 (by simp)⟩

/-- C6: for the empty target list, `CheckURLs` returns the empty result
collection and spawns zero workers, for every timeout, every
`maxWorkers` value (even ≤ 0), every probe behaviour and every
cancellation state.  (The "immediately" of the claim is the early
`workerCount == 0` return of the code, taken before the spawn loop.) -/
theorem C6_empty_input (tm : Nat) (mw : Int) (probe : String → CheckResult)
    (cancel : CancelSignal) :
    CheckURLs (New tm mw) probe cancel [] = [] ∧
    spawnedWorkers (New tm mw) [] = 0 := by
  have hs := spawnedWorkers_nil (New tm mw)
  refine ⟨?_, hs⟩
  unfold CheckURLs dispatchedURLs
  rcases eq_or_ne (workerCount (New tm mw) []) 0 with h | h
  · rw [if_pos h]
    rfl
  · rw [if_neg h, if_pos hs]
    rfl

/-- C7 (amended): once the cancellation signal is observed at a poll, no
executor dispatches any further probe (the drain of the jobs channel
stops at once); but a probe already in flight is *not* left to its own
per-request timeout — the batch context is attached to the request, so
cancellation aborts the in-flight `Do` call immediately, after only the
context's remaining time, with a context error.  (`C7_counterexample`
refutes the claim's "not interrupted beyond its own timeout" part.) -/
theorem C7_cancellation_policy (cancel : CancelSignal) (t : Nat)
    (l : List String) (h : cancel.fires t = true)
    (tm ctxRem delay : Nat) (s : Int)
    (h2 : ctxRem < delay) (h3 : ctxRem < tm) :
    probedJobs cancel t l = [] ∧
    clientDo tm (some ctxRem) delay s =
      (Except.error "context deadline exceeded", ctxRem) := by
  constructor
  · cases l with
    | nil => rfl
    | cons u rest => simp [probedJobs, h]
  · simp only [clientDo]
    rw [if_neg (by omega), if_pos h3, Nat.min_eq_right h3.le]

/-- C7, instantiated: a deadline already fired at poll 0 stops the drain
of a one-job queue, and aborts at 100 ms a request whose server would
answer after 1000 ms under a 5000 ms client timeout. -/
theorem C7_witness :
    (cancelFrom 0).fires 0 = true ∧
    (100 : Nat) < 1000 ∧ (100 : Nat) < 5000 ∧
    probedJobs (cancelFrom 0) 0 ["https://s.example"] = [] ∧
    clientDo 5000 (some 100) 1000 200 =
      (Except.error "context deadline exceeded", 100) := by
  have h := C7_cancellation_policy (cancelFrom 0) 0 ["https://s.example"]
    (by decide) 5000 100 1000 200 (by decide) (by decide)
  exact ⟨by decide, by decide, by decide, h.1, h.2⟩

/-- C7, refuted as stated: a probe in flight (server answers at 1000 ms,
well within its own 5000 ms timeout, so uncancelled it returns status 200
at 1000 ms) is aborted at 100 ms when the batch deadline fires — the
cancellation interrupts it beyond what its own per-request timeout
provides, and the outcome is a cancellation error. -/
theorem C7_counterexample :
    clientDo 5000 none 1000 200 = (Except.ok 200, 1000) ∧
    clientDo 5000 (some 100) 1000 200 =
      (Except.error "context deadline exceeded", 100) ∧
    (100 : Nat) < 1000 ∧ (1000 : Nat) ≤ 5000 ∧
    (checkURL ⟨none, (clientDo 5000 (some 100) 1000 200).1,
        ((clientDo 5000 (some 100) 1000 200).2 : Int), 0⟩
      "https://slow.example").error = "request failed: context deadline exceeded" := by
  exact ⟨rfl, rfl, by decide, by decide, rfl⟩

/-- C9: whenever the checker was constructed with `maxWorkers ≤ 0` and the
URL list is non-empty, `CheckURLs` dispatches no probe and returns the
empty result list; no error is signalled to the caller (the return type
carries none). -/
theorem C9_nonpositive_workers_empty (c : Checker) (probe : String → CheckResult)
    (cancel : CancelSignal) (urls : List String)
    (hw : c.maxWorkers ≤ 0) (_hne : urls ≠ []) :
    CheckURLs c probe cancel urls = [] ∧
    dispatchedURLs c cancel urls = [] :=
  checkURLs_nonpos_workers c probe cancel urls hw

/-- C9, instantiated: `maxWorkers = -1` (so neither the `workerCount == 0`
early return nor any worker spawn happens) with two targets. -/
theorem C9_witness :
    (New 5000 (-1)).maxWorkers ≤ 0 ∧
    (["https://a.example", "https://b.example"] : List String) ≠ [] ∧
    CheckURLs (New 5000 (-1)) probeStub cancelNever
      ["https://a.example", "https://b.example"] = [] ∧
    dispatchedURLs (New 5000 (-1)) cancelNever
      ["https://a.example", "https://b.example"] = [] := by
  have h := C9_nonpositive_workers_empty (New 5000 (-1)) probeStub cancelNever
    ["https://a.example", "https://b.example"] (by decide) (by simp)
  exact ⟨by decide, by simp, h.1, h.2⟩

end URLChecker
